import Mathlib

/-!
Shallow embedding of `src/voice_temp.py` (voice-activated task scheduler):
the task data model, CSV task log, datetime normalization, the voice-input
retry loop, the reminder scheduler, and the task-creation flow.
-/

namespace VoiceTemp

/-- `Task` dataclass: `name`, `due_date`, `deadline_time`, all strings. -/
structure Task where
  name : String
  due_date : String
  deadline_time : String
deriving DecidableEq, Repr

/-! ## Datetime model and formatting

Python `datetime` values produced by `dateparser.parse` are modelled by their
components.  `dt.time() == dt.min.time()` in the source compares the whole
time-of-day (hour, minute, second, microsecond) against midnight. -/

structure PyDatetime where
  year : Nat
  month : Nat
  day : Nat
  hour : Nat
  minute : Nat
  second : Nat
  microsecond : Nat
deriving DecidableEq, Repr

/-- The character for a single decimal digit `n < 10`. -/
def digitChar (n : Nat) : Char := Char.ofNat (48 + n)

/-- Two-digit zero-padded decimal, as `strftime` renders `%H`, `%M`, `%m`, `%d`
for their in-range values (all below 100). -/
def pad2 (n : Nat) : List Char := [digitChar (n / 10), digitChar (n % 10)]

/-- Four-digit zero-padded decimal, as `strftime` renders `%Y` for years
below 10000. -/
def pad4 (n : Nat) : List Char :=
  [digitChar (n / 1000), digitChar (n / 100 % 10), digitChar (n / 10 % 10),
   digitChar (n % 10)]

/-- `dt.strftime("%Y-%m-%d")`. -/
def formatDate (dt : PyDatetime) : String :=
  ⟨pad4 dt.year ++ ['-'] ++ pad2 dt.month ++ ['-'] ++ pad2 dt.day⟩

/-- `dt.strftime("%H:%M")`. -/
def formatTime (dt : PyDatetime) : String :=
  ⟨pad2 dt.hour ++ [':'] ++ pad2 dt.minute⟩

/-- `dt.time() == dt.min.time()`: the time-of-day is exactly midnight. -/
def isMidnight (dt : PyDatetime) : Bool :=
  dt.hour == 0 && dt.minute == 0 && dt.second == 0 && dt.microsecond == 0

/-- `dt.replace(hour=12, minute=0)`. -/
def replaceNoon (dt : PyDatetime) : PyDatetime :=
  { dt with hour := 12, minute := 0 }

/-- `TaskManager.parse_datetime`.  The `dateparser.parse` collaborator is an
explicit parameter `resolve`; `None` from it becomes an error, a resolved
datetime at exactly midnight has its time overridden to 12:00, and the result
is the `strftime`-formatted `(date, time)` pair. -/
def parse_datetime (resolve : String → Option PyDatetime) (text : String) :
    Except String (String × String) :=
  match resolve text with
  | none => .error "Could not parse datetime"
  | some dt =>
    let dt := if isMidnight dt then replaceNoon dt else dt
    .ok (formatDate dt, formatTime dt)

/-! ## Shape predicates for the formatted output -/

/-- The string has the `YYYY-MM-DD` shape: ten characters, dashes at
positions 4 and 7, decimal digits everywhere else. -/
def dateShaped (s : String) : Prop :=
  ∃ a b c d e f g h : Char,
    s.data = [a, b, c, d, '-', e, f, '-', g, h] ∧
    (∀ x ∈ [a, b, c, d, e, f, g, h], x.isDigit)

/-- The string has the `HH:MM` shape: five characters, a colon at position 2,
decimal digits everywhere else. -/
def timeShaped (s : String) : Prop :=
  ∃ a b c d : Char,
    s.data = [a, b, ':', c, d] ∧ (∀ x ∈ [a, b, c, d], x.isDigit)

theorem digitChar_isDigit {n : Nat} (h : n < 10) : (digitChar n).isDigit := by
  interval_cases n <;> decide

theorem pad2_digits {n : Nat} (h : n < 100) :
    ∀ x ∈ pad2 n, x.isDigit := by
  intro x hx
  simp only [pad2, List.mem_cons, List.mem_singleton, List.not_mem_nil,
    or_false] at hx
  rcases hx with rfl | rfl
  · exact digitChar_isDigit (by omega)
  · exact digitChar_isDigit (Nat.mod_lt _ (by omega))

theorem pad4_digits {n : Nat} (h : n < 10000) :
    ∀ x ∈ pad4 n, x.isDigit := by
  intro x hx
  simp only [pad4, List.mem_cons, List.mem_singleton, List.not_mem_nil,
    or_false] at hx
  rcases hx with rfl | rfl | rfl | rfl
  · exact digitChar_isDigit (by omega)
  · exact digitChar_isDigit (Nat.mod_lt _ (by omega))
  · exact digitChar_isDigit (Nat.mod_lt _ (by omega))
  · exact digitChar_isDigit (Nat.mod_lt _ (by omega))

theorem div_ten_lt {n : Nat} (h : n < 100) : n / 10 < 10 :=
  Nat.div_lt_of_lt_mul (by omega)

theorem formatDate_shaped {dt : PyDatetime} (hy : dt.year < 10000)
    (hm : dt.month < 100) (hd : dt.day < 100) : dateShaped (formatDate dt) := by
  refine ⟨_, _, _, _, _, _, _, _, rfl, ?_⟩
  intro x hx
  simp only [List.mem_cons, List.mem_singleton, List.not_mem_nil,
    or_false] at hx
  rcases hx with rfl | rfl | rfl | rfl | rfl | rfl | rfl | rfl
  · exact digitChar_isDigit (Nat.div_lt_of_lt_mul (by omega))
  · exact digitChar_isDigit (Nat.mod_lt _ (by omega))
  · exact digitChar_isDigit (Nat.mod_lt _ (by omega))
  · exact digitChar_isDigit (Nat.mod_lt _ (by omega))
  · exact digitChar_isDigit (div_ten_lt hm)
  · exact digitChar_isDigit (Nat.mod_lt _ (by omega))
  · exact digitChar_isDigit (div_ten_lt hd)
  · exact digitChar_isDigit (Nat.mod_lt _ (by omega))

theorem formatTime_shaped {dt : PyDatetime} (hh : dt.hour < 100)
    (hm : dt.minute < 100) : timeShaped (formatTime dt) := by
  refine ⟨_, _, _, _, rfl, ?_⟩
  intro x hx
  simp only [List.mem_cons, List.mem_singleton, List.not_mem_nil,
    or_false] at hx
  rcases hx with rfl | rfl | rfl | rfl
  · exact digitChar_isDigit (div_ten_lt hh)
  · exact digitChar_isDigit (Nat.mod_lt _ (by omega))
  · exact digitChar_isDigit (div_ten_lt hm)
  · exact digitChar_isDigit (Nat.mod_lt _ (by omega))

/-! ## TaskConfig and the CSV task log

The log file is modelled as `Option (List CsvRow)`: `none` means the file
does not exist; `some rows` is its parsed row contents.  The `csv` module's
byte-level encoding is abstracted to rows of fields. -/

/-- `TaskConfig` dataclass (the fields the core logic reads). -/
structure TaskConfig where
  max_retries : Nat := 3
deriving Repr

abbrev CsvRow := List String

abbrev CsvFile := Option (List CsvRow)

/-- The header row written by `_initialize_csv`. -/
def headerRow : CsvRow := ["Task Name", "Due Date", "Deadline Time"]

/-- `TaskManager._initialize_csv`: if the file does not exist, create it with
the single header row; otherwise leave it untouched. -/
def _initialize_csv (fs : CsvFile) : CsvFile :=
  match fs with
  | none => some [headerRow]
  | some rows => some rows

/-- The data row `save_task` writes for a task. -/
def taskRow (t : Task) : CsvRow := [t.name, t.due_date, t.deadline_time]

/-- `TaskManager.save_task`: open in append mode (creating an empty file when
none exists) and write one row with the task's three fields. -/
def save_task (fs : CsvFile) (t : Task) : CsvFile :=
  some (fs.getD [] ++ [taskRow t])

/-! ## Voice input: `speech_to_text` and the `get_voice_input` retry loop

The microphone, file system and Whisper collaborators are an environment
giving each attempt's outcome.  The trace counts attempts, temporary audio
files created and removed, and the prompts spoken via text-to-speech. -/

/-- Python `str.strip()` on the underlying character list: drop whitespace
from the front, then from the back. -/
def pyStripL (l : List Char) : List Char :=
  ((l.dropWhile Char.isWhitespace).reverse.dropWhile Char.isWhitespace).reverse

/-- Python `str.strip()`. -/
def pyStrip (s : String) : String := ⟨pyStripL s.data⟩

/-- `TaskManager.speech_to_text` with the Whisper call returning `raw`:
the transcript text is stripped before being returned. -/
def speech_to_text (raw : String) : String := pyStrip raw

/-- Outcome of one Whisper transcription call in the environment. -/
inductive SttResult
  | raises
  | transcript (raw : String)
deriving DecidableEq, Repr

/-- Environment behaviour of one attempt of the `get_voice_input` loop. -/
structure Attempt where
  recordRaises : Bool := false
  saveRaises : Bool := false
  stt : SttResult := .raises
deriving Repr

/-- Observable trace of a `get_voice_input` call. -/
structure VoiceTrace where
  attempts : Nat := 0
  created : Nat := 0
  removed : Nat := 0
  spoken : List String := []
deriving DecidableEq, Repr

def apologyPrompt : String := "Sorry, I didn't catch that. Please try again."

/-- One iteration of the retry loop in `get_voice_input`: record, save to a
temp file, transcribe; a non-empty stripped transcript returns immediately,
an empty one speaks the apology and fails the attempt, any exception is
caught and fails the attempt; the `finally` block removes the temp file
whenever a path was assigned. -/
def runAttempt (a : Attempt) (tr : VoiceTrace) : VoiceTrace × Option String :=
  let tr := { tr with attempts := tr.attempts + 1 }
  if a.recordRaises then
    (tr, none)
  else if a.saveRaises then
    (tr, none)
  else
    match a.stt with
    | .raises =>
      ({ tr with created := tr.created + 1, removed := tr.removed + 1 }, none)
    | .transcript raw =>
      let text := speech_to_text raw
      if text ≠ "" then
        ({ tr with created := tr.created + 1, removed := tr.removed + 1 },
         some text)
      else
        ({ tr with created := tr.created + 1, removed := tr.removed + 1,
                   spoken := tr.spoken ++ [apologyPrompt] }, none)

/-- The `for attempt in range(max_retries)` loop body of `get_voice_input`;
`fuel` is the number of attempts left, `i` the index of the next attempt. -/
def voiceLoop (env : Nat → Attempt) (i : Nat) :
    Nat → VoiceTrace → VoiceTrace × Except String String
  | 0, tr => (tr, .error "Maximum retries reached")
  | fuel + 1, tr =>
    match runAttempt (env i) tr with
    | (tr, some text) => (tr, .ok text)
    | (tr, none) => voiceLoop env (i + 1) fuel tr

/-- `TaskManager.get_voice_input`: speak the prompt if given, then run up to
`config.max_retries` attempts; exhaustion raises
`ValueError("Maximum retries reached")`, modelled as `.error`. -/
def get_voice_input (config : TaskConfig) (prompt : Option String)
    (env : Nat → Attempt) : VoiceTrace × Except String String :=
  voiceLoop env 0 config.max_retries
    { spoken := match prompt with | some p => [p] | none => [] }

/-! ## Reminder scheduler

The `schedule` library state is a list of jobs.  Wall-clock instants are
absolute minutes; `every().day.at("HH:MM")` parses the time-of-day string,
sets the first run to the next occurrence of that time-of-day, and
`run_pending` fires every job whose `nextRun` has arrived, rescheduling it
for the next day (daily period; jobs are never removed, since the reminder
callback returns `None`, not `CancelJob`). -/

def minutesPerDay : Nat := 1440

/-- Parse a `"HH:MM"` string (as `schedule`'s `at` does for its two-digit
24-hour format) into minutes past midnight. -/
def parseHM (s : String) : Option Nat :=
  match s.data with
  | [h1, h2, c, m1, m2] =>
    if c = ':' ∧ h1.isDigit ∧ h2.isDigit ∧ m1.isDigit ∧ m2.isDigit then
      if 10 * (h1.toNat - 48) + (h2.toNat - 48) < 24
          ∧ 10 * (m1.toNat - 48) + (m2.toNat - 48) < 60 then
        some ((10 * (h1.toNat - 48) + (h2.toNat - 48)) * 60
          + (10 * (m1.toNat - 48) + (m2.toNat - 48)))
      else none
    else none
  | _ => none

/-- A registered trigger: its time-of-day, its next scheduled firing instant,
and the message its callback sends. -/
structure Job where
  tod : Nat
  nextRun : Nat
  msg : String
deriving DecidableEq, Repr

abbrev SchedState := List Job

/-- The message built by the `send_reminder` callback inside
`schedule_reminder`. -/
def reminderMessage (t : Task) : String :=
  "Reminder: Task '" ++ t.name ++ "' is due on " ++ t.due_date ++ " at "
    ++ t.deadline_time

/-- The first occurrence of time-of-day `tod` strictly after `now`:
today if `tod` is still ahead, otherwise tomorrow. -/
def firstRun (now tod : Nat) : Nat :=
  if now % minutesPerDay < tod then now - now % minutesPerDay + tod
  else now - now % minutesPerDay + tod + minutesPerDay

/-- `TaskManager.schedule_reminder` at wall-clock instant `now`:
`schedule.every().day.at(task.deadline_time).do(send_reminder)` appends a
daily job; an unparseable time-of-day string raises in the library
(modelled as `none`). -/
def schedule_reminder (now : Nat) (task : Task) (s : SchedState) :
    Option SchedState :=
  match parseHM task.deadline_time with
  | none => none
  | some tod => some (s ++ [⟨tod, firstRun now tod, reminderMessage task⟩])

/-- `run_pending` on a single job: fire it when its scheduled instant has
arrived, pushing the next run to tomorrow's occurrence of `tod`; the job
itself always stays registered. -/
def runJob (now : Nat) (j : Job) : Job × Option String :=
  if j.nextRun ≤ now then
    ({ j with nextRun := now - now % minutesPerDay + j.tod + minutesPerDay },
     some j.msg)
  else (j, none)

/-- `schedule.run_pending()` at instant `now`: the updated job list and the
messages handed to `send_whatsapp_message` by the fired callbacks. -/
def run_pending (now : Nat) (s : SchedState) : SchedState × List String :=
  ((s.map (runJob now)).map Prod.fst, (s.map (runJob now)).filterMap Prod.snd)

/-! ## Task-creation flow -/

/-- The collaborators `create_task` consults: the voice environments of its
two `get_voice_input` calls and the `dateparser` resolver. -/
structure FlowEnv where
  nameEnv : Nat → Attempt
  dateEnv : Nat → Attempt
  resolve : String → Option PyDatetime

def namePrompt : String := "Please say the task name:"

def datePrompt : String :=
  "When is this due? For example, you can say 'tomorrow at 3pm'"

/-- `TaskManager.create_task`: capture the name, capture the date text,
normalize it, and build the `Task`; any exception is caught, spoken back as
an error (second component), and `None` is returned. -/
def create_task (config : TaskConfig) (env : FlowEnv) :
    Option Task × Option String :=
  match (get_voice_input config (some namePrompt) env.nameEnv).2 with
  | .error e => (none, some ("Error creating task: " ++ e))
  | .ok task_name =>
    match (get_voice_input config (some datePrompt) env.dateEnv).2 with
    | .error e => (none, some ("Error creating task: " ++ e))
    | .ok date_str =>
      match parse_datetime env.resolve date_str with
      | .error e => (none, some ("Error creating task: " ++ e))
      | .ok (due_date, deadline_time) =>
        (some ⟨task_name, due_date, deadline_time⟩, none)

/-! ## Claim theorems: datetime normalization -/

theorem formatTime_noon (dt : PyDatetime) :
    formatTime (replaceNoon dt) = "12:00" := by
  show (⟨pad2 12 ++ [':'] ++ pad2 0⟩ : String) = "12:00"
  decide

/-- C4: when the resolver yields a datetime, `parse_datetime` succeeds; a
resolved value at exactly midnight (the resolver's no-explicit-time default)
gets deadline time `"12:00"`, an explicit time such as 15:00 (from
"tomorrow at 3pm") is kept and rendered `"15:00"`, and the returned pair is
formatted `YYYY-MM-DD` and `HH:MM` (24-hour). -/
theorem parse_datetime_default_noon (resolve : String → Option PyDatetime)
    (text : String) (dt : PyDatetime) (hres : resolve text = some dt)
    (hy : dt.year < 10000) (hmo : dt.month < 100) (hda : dt.day < 100)
    (hh : dt.hour < 24) (hmi : dt.minute < 60) :
    parse_datetime resolve text =
      .ok (formatDate (if isMidnight dt then replaceNoon dt else dt),
           formatTime (if isMidnight dt then replaceNoon dt else dt)) ∧
    (isMidnight dt = true →
      formatTime (if isMidnight dt then replaceNoon dt else dt) = "12:00") ∧
    (isMidnight dt = false →
      formatTime (if isMidnight dt then replaceNoon dt else dt)
        = formatTime dt) ∧
    (dt.hour = 15 → dt.minute = 0 →
      formatTime (if isMidnight dt then replaceNoon dt else dt) = "15:00") ∧
    dateShaped (formatDate (if isMidnight dt then replaceNoon dt else dt)) ∧
    timeShaped (formatTime (if isMidnight dt then replaceNoon dt else dt)) := by
  refine ⟨by simp [parse_datetime, hres], ?_, ?_, ?_, ?_, ?_⟩
  · intro hmid
    rw [if_pos hmid]
    exact formatTime_noon dt
  · intro hmid
    rw [if_neg (by simp [hmid])]
  · intro h15 hm0
    have hmid : isMidnight dt = false := by simp [isMidnight, h15]
    rw [if_neg (by simp [hmid])]
    show (⟨pad2 dt.hour ++ [':'] ++ pad2 dt.minute⟩ : String) = "15:00"
    rw [h15, hm0]
    decide
  · cases hB : isMidnight dt
    · rw [if_neg (by decide)]
      exact formatDate_shaped hy hmo hda
    · rw [if_pos rfl]
      exact @formatDate_shaped (replaceNoon dt) hy hmo hda
  · cases hB : isMidnight dt
    · rw [if_neg (by decide)]
      exact formatTime_shaped (by omega) (by omega)
    · rw [if_pos rfl]
      exact @formatTime_shaped (replaceNoon dt)
        (show (12 : Nat) < 100 by norm_num) (show (0 : Nat) < 100 by norm_num)

/-- Witness for C4: a resolver that maps "tomorrow" to midnight of
2025-01-02 yields `("2025-01-02", "12:00")`. -/
theorem parse_datetime_default_noon_witness :
    parse_datetime (fun _ => some ⟨2025, 1, 2, 0, 0, 0, 0⟩) "tomorrow"
      = .ok ("2025-01-02", "12:00") := by
  have h := parse_datetime_default_noon
    (fun _ => some ⟨2025, 1, 2, 0, 0, 0, 0⟩) "tomorrow" ⟨2025, 1, 2, 0, 0, 0, 0⟩
    rfl (by norm_num) (by norm_num) (by norm_num) (by norm_num) (by norm_num)
  rw [h.1]
  rfl

/-- C5: when the resolver returns no value, `parse_datetime` raises
`ValueError("Could not parse datetime")` and produces no pair. -/
theorem parse_datetime_unresolved_raises
    (resolve : String → Option PyDatetime) (text : String)
    (hres : resolve text = none) :
    parse_datetime resolve text = .error "Could not parse datetime" := by
  simp [parse_datetime, hres]

/-- Witness for C5: a resolver rejecting everything makes
`parse_datetime "not a date"` fail. -/
theorem parse_datetime_unresolved_raises_witness :
    parse_datetime (fun _ => none) "not a date"
      = .error "Could not parse datetime" :=
  parse_datetime_unresolved_raises (fun _ => none) "not a date" rfl

/-- C10: a resolver result whose time-of-day is exactly 00:00 — also when the
user explicitly asked for midnight, as in "tomorrow at midnight" — is
indistinguishable from the resolver's default, so the deadline time comes
back `"12:00"` instead of the requested `"00:00"`. -/
theorem parse_datetime_explicit_midnight_moved
    (resolve : String → Option PyDatetime) (dt : PyDatetime)
    (hres : resolve "tomorrow at midnight" = some dt)
    (h0 : dt.hour = 0 ∧ dt.minute = 0 ∧ dt.second = 0 ∧ dt.microsecond = 0) :
    parse_datetime resolve "tomorrow at midnight"
      = .ok (formatDate (replaceNoon dt), "12:00") ∧
    formatTime dt = "00:00" ∧ ("12:00" : String) ≠ "00:00" := by
  obtain ⟨h1, h2, h3, h4⟩ := h0
  have hmid : isMidnight dt = true := by simp [isMidnight, h1, h2, h3, h4]
  refine ⟨?_, ?_, by decide⟩
  · simp only [parse_datetime, hres]
    rw [if_pos hmid, formatTime_noon]
  · show (⟨pad2 dt.hour ++ [':'] ++ pad2 dt.minute⟩ : String) = "00:00"
    rw [h1, h2]
    decide

/-- Witness for C10: a resolver mapping "tomorrow at midnight" to midnight of
2025-01-02 yields noon, not midnight. -/
theorem parse_datetime_explicit_midnight_moved_witness :
    parse_datetime (fun _ => some ⟨2025, 1, 2, 0, 0, 0, 0⟩)
      "tomorrow at midnight" = .ok ("2025-01-02", "12:00") := by
  have h := parse_datetime_explicit_midnight_moved
    (fun _ => some ⟨2025, 1, 2, 0, 0, 0, 0⟩) ⟨2025, 1, 2, 0, 0, 0, 0⟩
    rfl (by norm_num)
  rw [h.1]
  rfl

/-! ## Claim theorems: the task log -/

/-- C6: `_initialize_csv` is idempotent — from a missing file it creates
exactly one header row, running it twice still leaves exactly one header
row, and an existing file (empty location initialized once already, or any
other contents) is left untouched, so the header is created iff no log
exists at call time. -/
theorem initialize_csv_idempotent :
    (∀ fs : CsvFile, _initialize_csv (_initialize_csv fs) = _initialize_csv fs)
    ∧ _initialize_csv none = some [headerRow]
    ∧ ((_initialize_csv (_initialize_csv none)).getD []).count headerRow = 1
    ∧ (∀ rows : List CsvRow, _initialize_csv (some rows) = some rows) := by
  refine ⟨fun fs => ?_, rfl, by decide, fun rows => rfl⟩
  cases fs <;> rfl

/-- C7: `save_task` leaves the log equal to the prior contents followed by
exactly one new row holding the task's name, due date and deadline time;
every prior row is preserved at its position. -/
theorem save_task_appends_one_row (rows : List CsvRow) (task : Task) :
    save_task (some rows) task = some (rows ++ [taskRow task])
    ∧ taskRow task = [task.name, task.due_date, task.deadline_time]
    ∧ (rows ++ [taskRow task]).take rows.length = rows
    ∧ (rows ++ [taskRow task]).length = rows.length + 1 := by
  refine ⟨rfl, rfl, ?_, by simp⟩
  simp [List.take_append]

/-! ## Claim theorems: the voice-input retry loop -/

theorem voiceLoop_all_raising (env : Nat → Attempt)
    (h : ∀ i, (env i).recordRaises = false ∧ (env i).saveRaises = false ∧
      (env i).stt = .raises) (fuel : Nat) :
    ∀ (i : Nat) (tr : VoiceTrace),
      voiceLoop env i fuel tr =
        ({ tr with attempts := tr.attempts + fuel, created := tr.created + fuel,
                   removed := tr.removed + fuel },
         .error "Maximum retries reached") := by
  induction fuel with
  | zero => intro i tr; simp [voiceLoop]
  | succ n ih =>
    intro i tr
    obtain ⟨h1, h2, h3⟩ := h i
    simp only [voiceLoop, runAttempt, h1, h2, h3, Bool.false_eq_true, if_false]
    rw [ih (i + 1)]
    simp only [Prod.mk.injEq, VoiceTrace.mk.injEq]
    and_intros <;> first | trivial | omega

/-- C3: with recording and saving succeeding but the speech-to-text
collaborator raising on every call, `get_voice_input` makes exactly
`max_retries` attempts (the `TaskConfig` default being 3), then raises
`ValueError("Maximum retries reached")`, and every temporary audio file
created during the attempts was removed (created = removed). -/
theorem get_voice_input_exhausts_retries (config : TaskConfig)
    (prompt : Option String) (env : Nat → Attempt)
    (h : ∀ i, (env i).recordRaises = false ∧ (env i).saveRaises = false ∧
      (env i).stt = .raises) :
    (get_voice_input config prompt env).2 = .error "Maximum retries reached" ∧
    (get_voice_input config prompt env).1.attempts = config.max_retries ∧
    (get_voice_input config prompt env).1.created = config.max_retries ∧
    (get_voice_input config prompt env).1.removed
      = (get_voice_input config prompt env).1.created ∧
    ({} : TaskConfig).max_retries = 3 := by
  unfold get_voice_input
  rw [voiceLoop_all_raising env h]
  simp

/-- Witness for C3: the default config with an always-raising transcriber
exhausts 3 attempts, raises, and leaks no temp file. -/
theorem get_voice_input_exhausts_retries_witness :
    (get_voice_input {} none (fun _ => { stt := .raises })).2
        = .error "Maximum retries reached" ∧
    (get_voice_input {} none (fun _ => { stt := .raises })).1.attempts = 3 ∧
    (get_voice_input {} none (fun _ => { stt := .raises })).1.removed
        = (get_voice_input {} none (fun _ => { stt := .raises })).1.created := by
  have h := get_voice_input_exhausts_retries {} none (fun _ => { stt := .raises })
    (fun _ => ⟨rfl, rfl, rfl⟩)
  exact ⟨h.1, h.2.1, h.2.2.2.1⟩

theorem pyStrip_whitespace (s : String) (h : ∀ c ∈ s.data, c.isWhitespace) :
    pyStrip s = "" := by
  unfold pyStrip pyStripL
  rw [List.dropWhile_eq_nil_iff.mpr h]
  rfl

/-- C9: a transcription result consisting only of whitespace is stripped to
the empty string by `speech_to_text`, so the attempt fails: `runAttempt`
returns no text and speaks the apology prompt, and the surrounding loop goes
on to the next attempt instead of returning the whitespace as success. -/
theorem whitespace_transcript_retried (raw : String)
    (hws : ∀ c ∈ raw.data, c.isWhitespace) (a : Attempt)
    (ha1 : a.recordRaises = false) (ha2 : a.saveRaises = false)
    (ha3 : a.stt = .transcript raw) (tr : VoiceTrace) :
    speech_to_text raw = "" ∧
    runAttempt a tr =
      ({ tr with attempts := tr.attempts + 1, created := tr.created + 1,
                 removed := tr.removed + 1,
                 spoken := tr.spoken ++ [apologyPrompt] }, none) ∧
    (∀ (env : Nat → Attempt) (i fuel : Nat), env i = a →
      voiceLoop env i (fuel + 1) tr =
        voiceLoop env (i + 1) fuel
          { tr with attempts := tr.attempts + 1, created := tr.created + 1,
                    removed := tr.removed + 1,
                    spoken := tr.spoken ++ [apologyPrompt] }) := by
  have hstrip : speech_to_text raw = "" := pyStrip_whitespace raw hws
  have hattempt : runAttempt a tr =
      ({ tr with attempts := tr.attempts + 1, created := tr.created + 1,
                 removed := tr.removed + 1,
                 spoken := tr.spoken ++ [apologyPrompt] }, none) := by
    simp [runAttempt, ha1, ha2, ha3, hstrip]
  refine ⟨hstrip, hattempt, ?_⟩
  intro env i fuel henv
  simp only [voiceLoop, henv, hattempt]

/-- Witness for C9: a lone-space transcript on the first attempt is retried
and the second attempt's text is returned instead. -/
theorem whitespace_transcript_retried_witness :
    speech_to_text " " = "" ∧
    runAttempt { stt := .transcript " " } {} =
      ({ attempts := 1, created := 1, removed := 1,
         spoken := [apologyPrompt] }, none) := by
  have h := whitespace_transcript_retried " " (by decide)
    { stt := .transcript " " } rfl rfl rfl {}
  exact ⟨h.1, h.2.1⟩

/-! ## Claim theorems: the task-creation flow -/

/-- C8: a failure in any of the three steps of `create_task` — name capture,
date capture, or datetime normalization — aborts the flow, speaks an error
description, and returns no `Task`; conversely a returned `Task` always
carries a due date and deadline time produced by a successful normalization,
so no `Task` is ever built from an unparseable date. -/
theorem create_task_failure_aborts (config : TaskConfig) (env : FlowEnv) :
    (((∃ e, (get_voice_input config (some namePrompt) env.nameEnv).2 = .error e) ∨
      (∃ e, (get_voice_input config (some datePrompt) env.dateEnv).2 = .error e) ∨
      (∃ s, (get_voice_input config (some datePrompt) env.dateEnv).2 = .ok s ∧
            env.resolve s = none)) →
      (create_task config env).1 = none ∧
      ∃ e, (create_task config env).2 = some ("Error creating task: " ++ e)) ∧
    (∀ task, (create_task config env).1 = some task →
      ∃ (s : String) (dt : PyDatetime),
        (get_voice_input config (some datePrompt) env.dateEnv).2 = .ok s ∧
        env.resolve s = some dt ∧
        task.due_date = formatDate (if isMidnight dt then replaceNoon dt else dt) ∧
        task.deadline_time
          = formatTime (if isMidnight dt then replaceNoon dt else dt)) := by
  cases hn : (get_voice_input config (some namePrompt) env.nameEnv).2 with
  | error e =>
    constructor
    · intro _
      exact ⟨by simp [create_task, hn], e, by simp [create_task, hn]⟩
    · intro task htask
      simp [create_task, hn] at htask
  | ok name =>
    cases hd : (get_voice_input config (some datePrompt) env.dateEnv).2 with
    | error e =>
      constructor
      · intro _
        exact ⟨by simp [create_task, hn, hd], e, by simp [create_task, hn, hd]⟩
      · intro task htask
        simp [create_task, hn, hd] at htask
    | ok s =>
      cases hr : env.resolve s with
      | none =>
        constructor
        · intro _
          refine ⟨by simp [create_task, hn, hd, parse_datetime, hr],
            "Could not parse datetime",
            by simp [create_task, hn, hd, parse_datetime, hr]⟩
        · intro task htask
          simp [create_task, hn, hd, parse_datetime, hr] at htask
      | some dt =>
        have hc : create_task config env
            = (some ⟨name,
                formatDate (if isMidnight dt then replaceNoon dt else dt),
                formatTime (if isMidnight dt then replaceNoon dt else dt)⟩,
               none) := by
          simp [create_task, hn, hd, parse_datetime, hr]
        constructor
        · rintro (⟨e, he⟩ | ⟨e, he⟩ | ⟨s', hs', hr'⟩)
          · exact absurd he (by simp)
          · exact absurd he (by simp)
          · obtain rfl : s = s' := by simpa using hs'
            exact absurd (hr.symm.trans hr') (by simp)
        · intro task htask
          rw [hc] at htask
          obtain rfl := Option.some.inj htask
          exact ⟨s, dt, rfl, hr, rfl, rfl⟩

/-- Witness for C8: with a resolver that rejects everything, `create_task`
speaks an error and returns no task. -/
theorem create_task_failure_aborts_witness :
    (create_task {} ⟨fun _ => { stt := .transcript "pay rent" },
                     fun _ => { stt := .transcript "tomorrow" },
                     fun _ => none⟩).1 = none ∧
    ∃ e, (create_task {} ⟨fun _ => { stt := .transcript "pay rent" },
                          fun _ => { stt := .transcript "tomorrow" },
                          fun _ => none⟩).2
        = some ("Error creating task: " ++ e) :=
  (create_task_failure_aborts {} _).1 (Or.inr (Or.inr ⟨"tomorrow", rfl, rfl⟩))

/-! ## Claim theorems: the reminder scheduler -/

theorem parseHM_lt (s : String) (tod : Nat) (h : parseHM s = some tod) :
    tod < minutesPerDay := by
  show tod < 1440
  unfold parseHM at h
  split at h
  · split at h
    · split at h
      · rename_i hrange
        injection h with h
        omega
      · exact absurd h (by simp)
    · exact absurd h (by simp)
  · exact absurd h (by simp)

theorem firstRun_mod (now tod : Nat) (h : tod < minutesPerDay) :
    firstRun now tod % minutesPerDay = tod := by
  unfold firstRun minutesPerDay at *
  split <;> omega

theorem run_pending_fire_now (now t : Nat) (msg : String) :
    run_pending now [⟨t, now, msg⟩] =
      ([⟨t, now - now % minutesPerDay + t + minutesPerDay, msg⟩], [msg]) := by
  simp [run_pending, runJob]

theorem run_pending_skip (now t n : Nat) (msg : String) (h : now < n) :
    run_pending now [⟨t, n, msg⟩] = ([⟨t, n, msg⟩], []) := by
  simp [run_pending, runJob, Nat.not_le.mpr h]

/-- The instant of the `k`-th daily firing of a trigger registered at
`regTime` for time-of-day `tod`. -/
def fireTime (regTime tod k : Nat) : Nat :=
  firstRun regTime tod + k * minutesPerDay

/-- The scheduler state after the trigger has fired on days `0..k-1`,
starting from the single freshly registered job. -/
def iterSched (regTime tod : Nat) (msg : String) : Nat → SchedState
  | 0 => [⟨tod, firstRun regTime tod, msg⟩]
  | k + 1 => (run_pending (fireTime regTime tod k) (iterSched regTime tod msg k)).1

theorem fireTime_mod (regTime tod k : Nat) (h : tod < minutesPerDay) :
    fireTime regTime tod k % minutesPerDay = tod := by
  have hf := firstRun_mod regTime tod h
  unfold fireTime minutesPerDay at *
  omega

theorem iterSched_spec (regTime tod : Nat) (msg : String)
    (h : tod < minutesPerDay) :
    ∀ k, iterSched regTime tod msg k = [⟨tod, fireTime regTime tod k, msg⟩] ∧
      (run_pending (fireTime regTime tod k) (iterSched regTime tod msg k)).2
        = [msg] := by
  intro k
  induction k with
  | zero =>
    have h0 : iterSched regTime tod msg 0
        = [⟨tod, fireTime regTime tod 0, msg⟩] := by
      simp [iterSched, fireTime]
    refine ⟨h0, ?_⟩
    rw [h0, run_pending_fire_now]
  | succ k ih =>
    have hm : fireTime regTime tod k % minutesPerDay = tod :=
      fireTime_mod regTime tod k h
    have hstep : iterSched regTime tod msg (k + 1)
        = [⟨tod, fireTime regTime tod (k + 1), msg⟩] := by
      show (run_pending (fireTime regTime tod k)
        (iterSched regTime tod msg k)).1 = _
      rw [ih.1, run_pending_fire_now]
      have he : fireTime regTime tod k - fireTime regTime tod k % minutesPerDay
          + tod + minutesPerDay = fireTime regTime tod (k + 1) := by
        unfold fireTime minutesPerDay at *
        omega
      rw [he]
    refine ⟨hstep, ?_⟩
    rw [hstep, run_pending_fire_now]

/-- C1: `schedule_reminder` installs a single daily trigger at the task's
deadline time-of-day; `run_pending` never removes a job (the list length,
each job's time-of-day and its message are preserved), the firing decision
ignores the message — the only place `due_date` occurs — and the trigger
fires on every subsequent day `k`, before and after the due date alike. -/
theorem schedule_reminder_daily_trigger (task : Task) (regTime tod : Nat)
    (hp : parseHM task.deadline_time = some tod) :
    schedule_reminder regTime task []
      = some [⟨tod, firstRun regTime tod, reminderMessage task⟩] ∧
    (∀ (now : Nat) (s : SchedState),
      ((run_pending now s).1).length = s.length) ∧
    (∀ (now : Nat) (j : Job),
      ((runJob now j).1).tod = j.tod ∧ ((runJob now j).1).msg = j.msg) ∧
    (∀ (now : Nat) (j : Job) (m : String),
      ((runJob now { j with msg := m }).2).isSome = ((runJob now j).2).isSome) ∧
    (∀ k, (run_pending (fireTime regTime tod k)
        (iterSched regTime tod (reminderMessage task) k)).2
      = [reminderMessage task]) := by
  have htod : tod < minutesPerDay := parseHM_lt _ _ hp
  refine ⟨by simp [schedule_reminder, hp], ?_, ?_, ?_, ?_⟩
  · intro now s
    simp [run_pending]
  · intro now j
    by_cases h : j.nextRun ≤ now <;> simp [runJob, h]
  · intro now j m
    by_cases h : j.nextRun ≤ now <;> simp [runJob, h]
  · intro k
    exact (iterSched_spec regTime tod (reminderMessage task) htod k).2

/-- Witness for C1: registering "pay rent" with deadline time "09:00" at
instant 0 installs the daily trigger for minute 540, and it fires on day
zero and on day one. -/
theorem schedule_reminder_daily_trigger_witness :
    parseHM ("09:00" : String) = some 540 ∧
    schedule_reminder 0 ⟨"pay rent", "2025-10-13", "09:00"⟩ []
      = some [⟨540, 540,
          reminderMessage ⟨"pay rent", "2025-10-13", "09:00"⟩⟩] ∧
    (run_pending (fireTime 0 540 1)
        (iterSched 0 540 (reminderMessage ⟨"pay rent", "2025-10-13", "09:00"⟩) 1)).2
      = [reminderMessage ⟨"pay rent", "2025-10-13", "09:00"⟩] := by
  have h := schedule_reminder_daily_trigger ⟨"pay rent", "2025-10-13", "09:00"⟩
    0 540 (by decide)
  refine ⟨by decide, ?_, h.2.2.2.2 1⟩
  rw [h.1]
  rfl

/-- C2: after registration, `run_pending` fires nothing before the wall clock
first reaches the task's deadline time-of-day; at that first instant the
dispatcher receives exactly one message — the reminder text — and polling
again at the same instant fires nothing more; the message contains the
task's name, due date and deadline time. -/
theorem register_then_first_fire (task : Task) (regTime tod : Nat)
    (hp : parseHM task.deadline_time = some tod) :
    ∀ s0, schedule_reminder regTime task [] = some s0 →
      (∀ now, now < firstRun regTime tod → (run_pending now s0).2 = []) ∧
      (run_pending (firstRun regTime tod) s0).2 = [reminderMessage task] ∧
      (run_pending (firstRun regTime tod)
        (run_pending (firstRun regTime tod) s0).1).2 = [] ∧
      task.name.data <:+: (reminderMessage task).data ∧
      task.due_date.data <:+: (reminderMessage task).data ∧
      task.deadline_time.data <:+: (reminderMessage task).data := by
  have htod : tod < minutesPerDay := parseHM_lt _ _ hp
  intro s0 hs0
  have hs0' : s0 = [⟨tod, firstRun regTime tod, reminderMessage task⟩] := by
    simp only [schedule_reminder, hp, List.nil_append, Option.some.injEq] at hs0
    exact hs0.symm
  subst hs0'
  have hmod : firstRun regTime tod % minutesPerDay = tod :=
    firstRun_mod regTime tod htod
  refine ⟨?_, ?_, ?_, ?_, ?_, ?_⟩
  · intro now hnow
    rw [run_pending_skip now tod (firstRun regTime tod)
      (reminderMessage task) hnow]
  · rw [run_pending_fire_now]
  · rw [run_pending_fire_now]
    have hgt : firstRun regTime tod
        < firstRun regTime tod - firstRun regTime tod % minutesPerDay
          + tod + minutesPerDay := by
      unfold minutesPerDay at *
      omega
    rw [run_pending_skip _ tod _ (reminderMessage task) hgt]
  · exact ⟨"Reminder: Task '".data,
      ("' is due on " ++ task.due_date ++ " at " ++ task.deadline_time).data,
      by simp [reminderMessage, String.data_append, List.append_assoc]⟩
  · exact ⟨("Reminder: Task '" ++ task.name ++ "' is due on ").data,
      (" at " ++ task.deadline_time).data,
      by simp [reminderMessage, String.data_append, List.append_assoc]⟩
  · exact ⟨("Reminder: Task '" ++ task.name ++ "' is due on "
        ++ task.due_date ++ " at ").data, ([] : List Char),
      by simp [reminderMessage, String.data_append, List.append_assoc]⟩

/-- Witness for C2: the registered "pay rent" trigger fires exactly the
reminder message at minute 540 and nothing at minute 539. -/
theorem register_then_first_fire_witness :
    (run_pending 539 [⟨540, 540,
        reminderMessage ⟨"pay rent", "2025-10-13", "09:00"⟩⟩]).2 = [] ∧
    (run_pending 540 [⟨540, 540,
        reminderMessage ⟨"pay rent", "2025-10-13", "09:00"⟩⟩]).2
      = [reminderMessage ⟨"pay rent", "2025-10-13", "09:00"⟩] := by
  have h := register_then_first_fire ⟨"pay rent", "2025-10-13", "09:00"⟩
    0 540 (by decide)
    [⟨540, 540, reminderMessage ⟨"pay rent", "2025-10-13", "09:00"⟩⟩] rfl
  exact ⟨h.1 539 (by decide), h.2.1⟩

end VoiceTemp
